import Mathlib

/-!
Verification of the docker-cr checkpoint/restore orchestrator.

This file shallowly embeds the mount-namespace reconciliation engine,
the CRIU driver and the checkpoint/restore orchestrators of the
repository and proves (or refutes) the specification claims about them.
Go strings are modelled as Lean `String`, Go slices as `List`, fallible
calls as `Except String`, and the ambient filesystem / runtime as
explicit oracle records passed to each function.
-/

namespace DockerCR

/-- Character-list prefix test; `listPrefix p s` holds when `p` is a
prefix of `s`. -/
def listPrefix : List Char → List Char → Bool
  | [], _ => true
  | _, [] => false
  | c :: cs, d :: ds => c == d && listPrefix cs ds

/-- Model of Go `strings.HasPrefix s p`: `p` is a prefix of `s`. -/
def strHasPrefix (s p : String) : Bool :=
  listPrefix p.data s.data

/-- One row per filesystem mount point, as in pkg/docker/manager.go
(`MountMapping`). -/
structure MountMapping where
  containerPath : String
  hostPath : String
  type : String
  options : String
  isExternal : Bool
  readOnly : Bool
deriving Repr, DecidableEq

/-- The `mnt[<container_path>]` dump-time descriptor built in
`BuildExternalMountMappings` (pkg/checkpoint/criu.go). -/
def mntDescriptor (cp : String) : String :=
  "mnt[" ++ cp ++ "]"

/-- The emission condition of the user-mapping loop in
`BuildExternalMountMappings`: external, non-empty host path, container
path not under /proc, /sys or /dev. -/
def userMountFilter (m : MountMapping) : Bool :=
  m.isExternal && m.hostPath != "" &&
    !(strHasPrefix m.containerPath "/proc") &&
    !(strHasPrefix m.containerPath "/sys") &&
    !(strHasPrefix m.containerPath "/dev")

/-- The fixed allow-list `standardMounts` of well-known virtual mounts in
`BuildExternalMountMappings`. -/
def standardMounts : List String :=
  [ "mnt[/proc/sys]",
    "mnt[/proc/sysrq-trigger]",
    "mnt[/proc/irq]",
    "mnt[/proc/bus]",
    "mnt[/sys/fs/cgroup]",
    "mnt[/sys]",
    "mnt[/dev]",
    "mnt[.dockerenv]",
    "mnt[/etc/hosts]",
    "mnt[/etc/hostname]",
    "mnt[/etc/resolv.conf]" ]

/-- The `for _, mapping := range mappings` loop of
`BuildExternalMountMappings`, threading the accumulated descriptor
slice. -/
def buildExternalGo : List MountMapping → List String → List String
  | [], acc => acc
  | m :: rest, acc =>
    if userMountFilter m then
      buildExternalGo rest (acc ++ [mntDescriptor m.containerPath])
    else
      buildExternalGo rest acc

/-- `BuildExternalMountMappings` (pkg/checkpoint/criu.go, lines 191-225):
start from the fixed allow-list, then append one descriptor per
qualifying user mapping. -/
def BuildExternalMountMappings (mappings : List MountMapping) : List String :=
  buildExternalGo mappings standardMounts

theorem buildExternalGo_eq (ms : List MountMapping) (acc : List String) :
    buildExternalGo ms acc =
      acc ++ (ms.filter userMountFilter).map (fun m => mntDescriptor m.containerPath) := by
  induction ms generalizing acc with
  | nil => simp [buildExternalGo]
  | cons m rest ih =>
    by_cases h : userMountFilter m
    · simp [buildExternalGo, h, ih, List.filter_cons]
    · simp [buildExternalGo, h, ih, List.filter_cons]

/-- C3: BuildExternalMountMappings returns the fixed allow-list first,
followed, in mapping-list order, by exactly one `mnt[<container_path>]`
descriptor for each mapping that is external, has a non-empty host path
and whose container path is not under /proc, /sys or /dev; in
particular mappings with IsExternal=false contribute nothing (they fail
the filter). -/
theorem buildExternalMountMappings_spec (mappings : List MountMapping) :
    BuildExternalMountMappings mappings =
      standardMounts ++
        (mappings.filter userMountFilter).map (fun m => mntDescriptor m.containerPath) := by
  exact buildExternalGo_eq mappings standardMounts

theorem string_append_left_cancel {a b c : String} (h : a ++ b = a ++ c) : b = c := by
  have hd : a.data ++ b.data = a.data ++ c.data := by
    have := congrArg String.data h
    simpa [String.data_append] using this
  have h2 : b.data = c.data := List.append_cancel_left hd
  cases b; cases c; exact congrArg String.mk h2

theorem string_append_right_cancel {a b c : String} (h : a ++ c = b ++ c) : a = b := by
  have hd : a.data ++ c.data = b.data ++ c.data := by
    have := congrArg String.data h
    simpa [String.data_append] using this
  have h2 : a.data = b.data := List.append_cancel_right hd
  cases a; cases b; exact congrArg String.mk h2

theorem mntDescriptor_injective : Function.Injective mntDescriptor := by
  intro a b h
  unfold mntDescriptor at h
  have h1 : "mnt[" ++ (a ++ "]") = "mnt[" ++ (b ++ "]") := by
    simpa [String.append_assoc] using h
  have h2 : a ++ "]" = b ++ "]" := string_append_left_cancel h1
  exact string_append_right_cancel h2

/-- C1 counterexample: the claim "no two descriptors name the same
container path" fails: a mapping list containing the same external
mapping twice yields the descriptor `mnt[/data]` twice, and a single
external mapping at `/etc/hosts` collides with the allow-list entry
`mnt[/etc/hosts]`. -/
theorem buildExternalMountMappings_dup_counterexample :
    ¬ (BuildExternalMountMappings
        [ ⟨"/data", "/tmp/d1", "bind", "", true, false⟩,
          ⟨"/data", "/tmp/d1", "bind", "", true, false⟩ ]).Nodup ∧
    ¬ (BuildExternalMountMappings
        [ ⟨"/etc/hosts", "/var/lib/docker/hosts", "bind", "", true, false⟩ ]).Nodup := by
  constructor
  · decide
  · decide

/-- C1 (amended): provided the mappings passing the emission filter have
pairwise-distinct container paths, none of which is `.dockerenv`,
`/etc/hosts`, `/etc/hostname` or `/etc/resolv.conf`, the descriptor
list returned by BuildExternalMountMappings contains no two descriptors
naming the same container path. -/
theorem buildExternalMountMappings_nodup (mappings : List MountMapping)
    (hpaths : ((mappings.filter userMountFilter).map
      (fun m => m.containerPath)).Nodup)
    (hstd : ∀ m ∈ mappings.filter userMountFilter,
      m.containerPath ∉ ([".dockerenv", "/etc/hosts", "/etc/hostname", "/etc/resolv.conf"] : List String)) :
    (BuildExternalMountMappings mappings).Nodup := by
  rw [buildExternalMountMappings_spec]
  have hmap : (mappings.filter userMountFilter).map
      (fun m => mntDescriptor m.containerPath) =
      ((mappings.filter userMountFilter).map (fun m => m.containerPath)).map
        mntDescriptor := by
    simp [List.map_map]
  rw [List.nodup_append]
  refine ⟨by decide, ?_, ?_⟩
  · rw [hmap]
    exact hpaths.map mntDescriptor_injective
  · -- allow-list descriptors are disjoint from the user-derived ones
    intro x hx hx'
    rw [hmap] at hx'
    rcases List.mem_map.mp hx' with ⟨cp, hcpmem, hcpeq⟩
    rcases List.mem_map.mp hcpmem with ⟨m, hm, rfl⟩
    have hfil := List.of_mem_filter hm
    simp only [userMountFilter, Bool.and_eq_true, Bool.not_eq_true'] at hfil
    obtain ⟨⟨⟨⟨hext, hhp⟩, hproc⟩, hsys⟩, hdev⟩ := hfil
    have hnotetc := hstd m hm
    simp only [standardMounts, List.mem_cons, List.not_mem_nil, or_false] at hx
    rcases hx with h | h | h | h | h | h | h | h | h | h | h
    · have hcp : m.containerPath = "/proc/sys" :=
        mntDescriptor_injective (show mntDescriptor m.containerPath = mntDescriptor "/proc/sys" by rw [hcpeq, h]; rfl)
      rw [hcp] at hproc; exact absurd hproc (by decide)
    · have hcp : m.containerPath = "/proc/sysrq-trigger" :=
        mntDescriptor_injective (show mntDescriptor m.containerPath = mntDescriptor "/proc/sysrq-trigger" by rw [hcpeq, h]; rfl)
      rw [hcp] at hproc; exact absurd hproc (by decide)
    · have hcp : m.containerPath = "/proc/irq" :=
        mntDescriptor_injective (show mntDescriptor m.containerPath = mntDescriptor "/proc/irq" by rw [hcpeq, h]; rfl)
      rw [hcp] at hproc; exact absurd hproc (by decide)
    · have hcp : m.containerPath = "/proc/bus" :=
        mntDescriptor_injective (show mntDescriptor m.containerPath = mntDescriptor "/proc/bus" by rw [hcpeq, h]; rfl)
      rw [hcp] at hproc; exact absurd hproc (by decide)
    · have hcp : m.containerPath = "/sys/fs/cgroup" :=
        mntDescriptor_injective (show mntDescriptor m.containerPath = mntDescriptor "/sys/fs/cgroup" by rw [hcpeq, h]; rfl)
      rw [hcp] at hsys; exact absurd hsys (by decide)
    · have hcp : m.containerPath = "/sys" :=
        mntDescriptor_injective (show mntDescriptor m.containerPath = mntDescriptor "/sys" by rw [hcpeq, h]; rfl)
      rw [hcp] at hsys; exact absurd hsys (by decide)
    · have hcp : m.containerPath = "/dev" :=
        mntDescriptor_injective (show mntDescriptor m.containerPath = mntDescriptor "/dev" by rw [hcpeq, h]; rfl)
      rw [hcp] at hdev; exact absurd hdev (by decide)
    · have hcp : m.containerPath = ".dockerenv" :=
        mntDescriptor_injective (show mntDescriptor m.containerPath = mntDescriptor ".dockerenv" by rw [hcpeq, h]; rfl)
      rw [hcp] at hnotetc; exact hnotetc (by decide)
    · have hcp : m.containerPath = "/etc/hosts" :=
        mntDescriptor_injective (show mntDescriptor m.containerPath = mntDescriptor "/etc/hosts" by rw [hcpeq, h]; rfl)
      rw [hcp] at hnotetc; exact hnotetc (by decide)
    · have hcp : m.containerPath = "/etc/hostname" :=
        mntDescriptor_injective (show mntDescriptor m.containerPath = mntDescriptor "/etc/hostname" by rw [hcpeq, h]; rfl)
      rw [hcp] at hnotetc; exact hnotetc (by decide)
    · have hcp : m.containerPath = "/etc/resolv.conf" :=
        mntDescriptor_injective (show mntDescriptor m.containerPath = mntDescriptor "/etc/resolv.conf" by rw [hcpeq, h]; rfl)
      rw [hcp] at hnotetc; exact hnotetc (by decide)

/-- C1 witness: the amended theorem applied to a concrete two-mapping
list with distinct container paths. -/
theorem buildExternalMountMappings_nodup_witness :
    (BuildExternalMountMappings
      [ ⟨"/data", "/tmp/d1", "bind", "", true, false⟩,
        ⟨"/cache", "/tmp/d2", "bind", "", true, false⟩ ]).Nodup :=
  buildExternalMountMappings_nodup
    [ ⟨"/data", "/tmp/d1", "bind", "", true, false⟩,
      ⟨"/cache", "/tmp/d2", "bind", "", true, false⟩ ]
    (by decide) (by decide)

/-! ### Restore-time external mount list (buildExternalMountArgs) -/

/-- The restore-time descriptor built per mapping in
`buildExternalMountArgs` (pkg/inspect/viewer.go): `mnt[cp]:hp` when a
host path is present, `mnt:cp` otherwise. -/
def restoreMountDesc (m : MountMapping) : String :=
  if m.hostPath != "" then
    "mnt[" ++ m.containerPath ++ "]:" ++ m.hostPath
  else
    "mnt:" ++ m.containerPath

/-- The fixed `essentialMounts` slice appended unconditionally at the
end of `buildExternalMountArgs`. -/
def essentialMounts : List String :=
  ["mnt:/proc", "mnt:/dev", "mnt:/sys"]

/-- The emission condition of the loop in `buildExternalMountArgs`:
external and not in the caller-supplied skip map (a Go map from skip
paths to `true`, so lookup is list membership). -/
def restoreMountKeep (skipMounts : List String) (m : MountMapping) : Bool :=
  m.isExternal && !(skipMounts.contains m.containerPath)

/-- The `for _, mapping := range mappings` loop of
`buildExternalMountArgs`, threading the accumulated slice. -/
def buildExternalArgsGo (skipMounts : List String) :
    List MountMapping → List String → List String
  | [], acc => acc
  | m :: rest, acc =>
    if restoreMountKeep skipMounts m then
      buildExternalArgsGo skipMounts rest (acc ++ [restoreMountDesc m])
    else
      buildExternalArgsGo skipMounts rest acc

/-- `buildExternalMountArgs` (pkg/inspect/viewer.go, lines 548-583):
mapping-derived descriptors filtered by the skip list, then the three
essential mounts appended unconditionally. -/
def buildExternalMountArgs (mappings : List MountMapping)
    (skipMounts : List String) : List String :=
  buildExternalArgsGo skipMounts mappings [] ++ essentialMounts

theorem buildExternalArgsGo_eq (skipMounts : List String)
    (ms : List MountMapping) (acc : List String) :
    buildExternalArgsGo skipMounts ms acc =
      acc ++ (ms.filter (restoreMountKeep skipMounts)).map restoreMountDesc := by
  induction ms generalizing acc with
  | nil => simp [buildExternalArgsGo]
  | cons m rest ih =>
    by_cases h : restoreMountKeep skipMounts m
    · simp [buildExternalArgsGo, h, ih, List.filter_cons]
    · simp [buildExternalArgsGo, h, ih, List.filter_cons]

/-- C6: the restore-time external-mount list consists exactly of one
descriptor per external mapping whose container path is not in the
caller-supplied skip list (so no descriptor is derived from a skipped
mapping), always followed by the fixed entries for /proc, /dev and
/sys, whatever the skip list contains. -/
theorem buildExternalMountArgs_spec (mappings : List MountMapping)
    (skipMounts : List String) :
    buildExternalMountArgs mappings skipMounts =
      (mappings.filter (restoreMountKeep skipMounts)).map restoreMountDesc ++
        ["mnt:/proc", "mnt:/dev", "mnt:/sys"] := by
  unfold buildExternalMountArgs
  rw [buildExternalArgsGo_eq]
  simp [essentialMounts]

/-! ### Command-line fallback dump (CheckpointProcessCmd) -/

/-- CRIU checkpoint options record (pkg/checkpoint/criu.go,
`CheckpointOptions`). -/
structure CheckpointOptions where
  workDir : String
  imagesDir : String
  logFile : String
  logLevel : Int
  external : List String
  manageCgroups : Bool
  tcpEstablished : Bool
  fileLocks : Bool
  leaveRunning : Bool
  shell : Bool
  preDump : Bool
  trackMem : Bool
deriving Repr, DecidableEq

/-- The unconditional argument slice built at the top of
`CheckpointProcessCmd` (pkg/checkpoint/criu_cmd.go, lines 15-34). -/
def checkpointCmdBaseArgs (pid : Int) (opts : CheckpointOptions) : List String :=
  [ "dump",
    "-t", toString pid,
    "-D", opts.imagesDir,
    "--log-file", opts.logFile,
    "-v4",
    "--tcp-established",
    "--file-locks",
    "--link-remap",
    "--force-irmap",
    "--manage-cgroups",
    "--enable-external-sharing",
    "--enable-external-masters",
    "--enable-fs", "hugetlbfs",
    "--enable-fs", "tracefs",
    "--skip-mnt", "/proc",
    "--skip-mnt", "/dev",
    "--skip-mnt", "/sys",
    "--skip-mnt", "/run" ]

/-- The `for _, ext := range opts.External` loop of
`CheckpointProcessCmd`: each descriptor is passed after an `--external`
flag. -/
def externalFlagArgs : List String → List String
  | [] => []
  | e :: rest => "--external" :: e :: externalFlagArgs rest

/-- The full argument list `CheckpointProcessCmd` passes to the `criu`
subprocess: base args, then `--leave-running` when requested, then the
external descriptors. -/
def checkpointCmdArgs (pid : Int) (opts : CheckpointOptions) : List String :=
  (checkpointCmdBaseArgs pid opts ++
    (if opts.leaveRunning then ["--leave-running"] else [])) ++
    externalFlagArgs opts.external

theorem mem_externalFlagArgs {x : String} {l : List String} :
    x ∈ externalFlagArgs l ↔ (x = "--external" ∧ l ≠ []) ∨ x ∈ l := by
  induction l with
  | nil => simp [externalFlagArgs]
  | cons e rest ih =>
    simp only [externalFlagArgs, List.mem_cons, ih]
    constructor
    · rintro (h | h | h)
      · exact Or.inl ⟨h, by simp⟩
      · exact Or.inr (Or.inl h)
      · rcases h with ⟨h1, _⟩ | h1
        · exact Or.inl ⟨h1, by simp⟩
        · exact Or.inr (Or.inr h1)
    · rintro (⟨h, _⟩ | h | h)
      · exact Or.inl h
      · exact Or.inr (Or.inl h)
      · exact Or.inr (Or.inr (Or.inr h))

/-- C2 counterexample: the fallback flag set is not derivable 1:1 from
the options record: with every boolean option cleared the subprocess
still receives `--tcp-established`, `--file-locks` and
`--manage-cgroups`, and with Shell set it never receives
`--shell-job`. -/
theorem checkpointCmdArgs_counterexample :
    ("--tcp-established" ∈
        checkpointCmdArgs 1 ⟨"/w", "/i", "/l", 0, [], false, false, false, false, false, false, false⟩ ∧
      ("--file-locks" ∈
        checkpointCmdArgs 1 ⟨"/w", "/i", "/l", 0, [], false, false, false, false, false, false, false⟩) ∧
      ("--manage-cgroups" ∈
        checkpointCmdArgs 1 ⟨"/w", "/i", "/l", 0, [], false, false, false, false, false, false, false⟩)) ∧
    ("--shell-job" ∉
        checkpointCmdArgs 1 ⟨"/w", "/i", "/l", 0, [], false, false, false, false, true, false, false⟩) := by
  constructor
  · refine ⟨?_, ?_, ?_⟩ <;> decide
  · decide

/-- C2 (amended): in the command-line fallback dump only
`--leave-running` mirrors its option field; `--tcp-established`,
`--file-locks` and `--manage-cgroups` are passed unconditionally, and
`--shell-job` is never passed, whatever the options record says
(provided none of the pid string, images dir, log file or
external-mount descriptors is itself one of those flag strings). -/
theorem checkpointCmdArgs_flags (pid : Int) (opts : CheckpointOptions)
    (hpid : toString pid ∉ (["--shell-job", "--leave-running"] : List String))
    (him : opts.imagesDir ∉ (["--shell-job", "--leave-running"] : List String))
    (hlf : opts.logFile ∉ (["--shell-job", "--leave-running"] : List String))
    (hlr : "--leave-running" ∉ opts.external)
    (hsj : "--shell-job" ∉ opts.external) :
    "--tcp-established" ∈ checkpointCmdArgs pid opts ∧
    "--file-locks" ∈ checkpointCmdArgs pid opts ∧
    "--manage-cgroups" ∈ checkpointCmdArgs pid opts ∧
    "--shell-job" ∉ checkpointCmdArgs pid opts ∧
    ("--leave-running" ∈ checkpointCmdArgs pid opts ↔ opts.leaveRunning = true) := by
  unfold checkpointCmdArgs
  refine ⟨?_, ?_, ?_, ?_, ?_⟩
  · exact List.mem_append_left _ (List.mem_append_left _ (by simp [checkpointCmdBaseArgs]))
  · exact List.mem_append_left _ (List.mem_append_left _ (by simp [checkpointCmdBaseArgs]))
  · exact List.mem_append_left _ (List.mem_append_left _ (by simp [checkpointCmdBaseArgs]))
  · intro hmem
    rcases List.mem_append.mp hmem with h | h
    · rcases List.mem_append.mp h with h | h
      · simp only [checkpointCmdBaseArgs] at h
        simp at h
        rcases h with h | h | h
        · rw [← h] at hpid; exact hpid (by decide)
        · rw [← h] at him; exact him (by decide)
        · rw [← h] at hlf; exact hlf (by decide)
      · by_cases hb : opts.leaveRunning
        · simp [hb] at h
        · simp [hb] at h
    · rcases mem_externalFlagArgs.mp h with ⟨h1, _⟩ | h1
      · simp at h1
      · exact hsj h1
  · constructor
    · intro hmem
      rcases List.mem_append.mp hmem with h | h
      · rcases List.mem_append.mp h with h | h
        · simp only [checkpointCmdBaseArgs] at h
          simp at h
          rcases h with h | h | h
          · rw [← h] at hpid; exact absurd (by decide) (fun hh => hpid hh)
          · rw [← h] at him; exact absurd (by decide) (fun hh => him hh)
          · rw [← h] at hlf; exact absurd (by decide) (fun hh => hlf hh)
        · by_cases hb : opts.leaveRunning
          · exact hb
          · simp [hb] at h
      · rcases mem_externalFlagArgs.mp h with ⟨h1, _⟩ | h1
        · simp at h1
        · exact absurd h1 hlr
    · intro hb
      refine List.mem_append_left _ (List.mem_append_right _ ?_)
      simp [hb]

/-- C2 witness: the amended theorem evaluated at a concrete options
record with LeaveRunning set and no external descriptors. -/
theorem checkpointCmdArgs_flags_witness :
    "--tcp-established" ∈
        checkpointCmdArgs 7 ⟨"/w", "/i", "/l", 4, [], true, true, true, true, true, false, false⟩ ∧
    "--file-locks" ∈
        checkpointCmdArgs 7 ⟨"/w", "/i", "/l", 4, [], true, true, true, true, true, false, false⟩ ∧
    "--manage-cgroups" ∈
        checkpointCmdArgs 7 ⟨"/w", "/i", "/l", 4, [], true, true, true, true, true, false, false⟩ ∧
    "--shell-job" ∉
        checkpointCmdArgs 7 ⟨"/w", "/i", "/l", 4, [], true, true, true, true, true, false, false⟩ ∧
    ("--leave-running" ∈
        checkpointCmdArgs 7 ⟨"/w", "/i", "/l", 4, [], true, true, true, true, true, false, false⟩ ↔
      (⟨"/w", "/i", "/l", 4, [], true, true, true, true, true, false, false⟩ : CheckpointOptions).leaveRunning = true) :=
  checkpointCmdArgs_flags 7
    ⟨"/w", "/i", "/l", 4, [], true, true, true, true, true, false, false⟩
    (by decide) (by decide) (by decide) (by decide) (by decide)

/-! ### Mount-source validation (ValidateMountSources) -/

/-- Abstract host filesystem: `existsAt p` means a file or directory
exists at path `p` (the disjunction `FileExists || DirExists` tested by
the code). -/
structure FileSys where
  existsAt : String → Bool

/-- Effect of a successful `utils.EnsureDir p`: afterwards something
exists at `p`; everything that existed keeps existing. -/
def FileSys.create (fs : FileSys) (p : String) : FileSys :=
  ⟨fun q => q == p || fs.existsAt q⟩

/-- `ValidateMountSources` (pkg/checkpoint/criu.go, lines 241-256): for
each external mapping with a non-empty host path whose source is
missing, create a placeholder directory; `mkdirOk p` tells whether the
`MkdirAll` underlying `EnsureDir` succeeds at `p`. -/
def ValidateMountSources (mkdirOk : String → Bool) (fs : FileSys) :
    List MountMapping → Except String FileSys
  | [] => .ok fs
  | m :: rest =>
    if m.isExternal && m.hostPath != "" then
      if !(fs.existsAt m.hostPath) then
        if mkdirOk m.hostPath then
          ValidateMountSources mkdirOk (fs.create m.hostPath) rest
        else
          .error ("failed to create mount source placeholder " ++ m.hostPath)
      else
        ValidateMountSources mkdirOk fs rest
    else
      ValidateMountSources mkdirOk fs rest

theorem validateMountSources_mono (mkdirOk : String → Bool)
    (ms : List MountMapping) (fs fs' : FileSys) (p : String)
    (hrun : ValidateMountSources mkdirOk fs ms = .ok fs')
    (hp : fs.existsAt p = true) : fs'.existsAt p = true := by
  induction ms generalizing fs with
  | nil =>
    simp only [ValidateMountSources] at hrun
    cases hrun
    exact hp
  | cons m rest ih =>
    simp only [ValidateMountSources] at hrun
    split at hrun
    · split at hrun
      · split at hrun
        · exact ih (fs.create m.hostPath) hrun (by simp [FileSys.create, hp])
        · cases hrun
      · exact ih fs hrun hp
    · exact ih fs hrun hp

/-- C5: ValidateMountSources fails only when placeholder creation
itself fails: if every directory creation succeeds it returns no error
(missing sources alone never fail it); any error points at a mapping
whose creation failed; and on a nil return every external mapping with
a non-empty host path has an existing host path. -/
theorem validateMountSources_spec (mkdirOk : String → Bool) (fs : FileSys)
    (ms : List MountMapping) :
    ((∀ p, mkdirOk p = true) →
      ∃ fs', ValidateMountSources mkdirOk fs ms = .ok fs') ∧
    (∀ e, ValidateMountSources mkdirOk fs ms = .error e →
      ∃ m ∈ ms, m.isExternal = true ∧ m.hostPath ≠ "" ∧ mkdirOk m.hostPath = false) ∧
    (∀ fs', ValidateMountSources mkdirOk fs ms = .ok fs' →
      ∀ m ∈ ms, m.isExternal = true → m.hostPath ≠ "" →
        fs'.existsAt m.hostPath = true) := by
  refine ⟨?_, ?_, ?_⟩
  · -- no error when every creation succeeds
    intro hall
    induction ms generalizing fs with
    | nil => exact ⟨fs, rfl⟩
    | cons m rest ih =>
      simp only [ValidateMountSources]
      split
      · split
        · rw [hall m.hostPath]
          exact ih (fs.create m.hostPath)
        · exact ih fs
      · exact ih fs
  · -- an error names a failed creation
    intro e herr
    induction ms generalizing fs with
    | nil => simp [ValidateMountSources] at herr
    | cons m rest ih =>
      simp only [ValidateMountSources] at herr
      split at herr
      · rename_i hcond
        split at herr
        · split at herr
          · rcases ih (fs.create m.hostPath) herr with ⟨m', hm', hprop⟩
            exact ⟨m', List.mem_cons_of_mem m hm', hprop⟩
          · rename_i hmk
            simp only [Bool.and_eq_true, bne_iff_ne, ne_eq] at hcond
            exact ⟨m, List.mem_cons_self m rest,
              hcond.1, hcond.2, Bool.not_eq_true _ ▸ (by simpa using hmk)⟩
        · rcases ih fs herr with ⟨m', hm', hprop⟩
          exact ⟨m', List.mem_cons_of_mem m hm', hprop⟩
      · rcases ih fs herr with ⟨m', hm', hprop⟩
        exact ⟨m', List.mem_cons_of_mem m hm', hprop⟩
  · -- on success every qualifying host path exists
    intro fs' hrun m hm hext hhp
    induction ms generalizing fs with
    | nil => simp at hm
    | cons m0 rest ih =>
      simp only [ValidateMountSources] at hrun
      rcases List.mem_cons.mp hm with rfl | hmem
      · -- the mapping at the head: the branch taken guarantees existence
        have hcond : (m.isExternal && m.hostPath != "") = true := by
          simp [hext, bne_iff_ne, hhp]
        rw [if_pos hcond] at hrun
        split at hrun
        · split at hrun
          · exact validateMountSources_mono mkdirOk rest _ fs' m.hostPath hrun
              (by simp [FileSys.create])
          · cases hrun
        · rename_i hex
          simp only [Bool.not_eq_true', Bool.not_eq_false] at hex
          exact validateMountSources_mono mkdirOk rest fs fs' m.hostPath hrun hex
      · -- a mapping further down the list
        split at hrun
        · split at hrun
          · split at hrun
            · exact ih _ hrun hmem
            · cases hrun
          · exact ih fs hrun hmem
        · exact ih fs hrun hmem

/-- C5 witness: with an empty filesystem and always-succeeding
directory creation, validating one external mapping returns success. -/
theorem validateMountSources_spec_witness :
    ∃ fs', ValidateMountSources (fun _ => true) ⟨fun _ => false⟩
      [⟨"/data", "/tmp/d1", "bind", "", true, false⟩] = .ok fs' :=
  (validateMountSources_spec (fun _ => true) ⟨fun _ => false⟩
    [⟨"/data", "/tmp/d1", "bind", "", true, false⟩]).1 (fun _ => rfl)

/-! ### Snapshot engine driver: dump with command-line fallback -/

/-- Oracles for the effectful calls made by the CRIU driver during a
checkpoint: directory creation/opening, the go-criu library pre-dump
and dump calls, and spawning the `criu` subprocess (returning its
combined output and result). -/
structure CriuWorld where
  ensureDir : String → Except String Unit
  openDir : String → Except String Int
  preDump : Except String Unit
  dump : Except String Unit
  execCriu : List String → String × Except String Unit

/-- `CheckpointProcessCmd` (pkg/checkpoint/criu_cmd.go, lines 11-60):
run the `criu` subprocess with the fallback argument list and wrap a
failure with the combined output. -/
def CheckpointProcessCmd (w : CriuWorld) (pid : Int)
    (opts : CheckpointOptions) : Except String Unit :=
  match w.execCriu (checkpointCmdArgs pid opts) with
  | (_, .ok ()) => .ok ()
  | (out, .error e) => .error ("CRIU checkpoint failed: " ++ e ++ "\nOutput: " ++ out)

/-- Engine invocations recorded by the dump driver. -/
inductive DumpAttempt where
  | preDumpCall
  | libraryDump
  | cmdDump
deriving DecidableEq, Repr

/-- `CheckpointProcess` (pkg/checkpoint/criu.go, lines 62-138): ensure
and open the work/images directories, optionally pre-dump (fatal on
failure), then try the library dump; on failure try the command-line
fallback once, combining both error messages if it also fails. The
first component records which engine invocations were attempted. -/
def dumpPhase (w : CriuWorld) (pid : Int) (opts : CheckpointOptions)
    (pre : List DumpAttempt) : List DumpAttempt × Except String Unit :=
  match w.dump with
  | .ok () => (pre ++ [.libraryDump], .ok ())
  | .error e =>
    match CheckpointProcessCmd w pid opts with
    | .ok () => (pre ++ [.libraryDump, .cmdDump], .ok ())
    | .error cmdErr =>
      (pre ++ [.libraryDump, .cmdDump],
        .error ("both go-criu and command-line CRIU failed.\nLibrary error: "
          ++ e ++ "\nCommand error: " ++ cmdErr))

def CheckpointProcess (w : CriuWorld) (pid : Int) (opts : CheckpointOptions) :
    List DumpAttempt × Except String Unit :=
  match w.ensureDir opts.workDir with
  | .error e => ([], .error ("failed to create work directory: " ++ e))
  | .ok () =>
  match w.ensureDir opts.imagesDir with
  | .error e => ([], .error ("failed to create images directory: " ++ e))
  | .ok () =>
  match w.openDir opts.workDir with
  | .error e => ([], .error ("failed to open work directory: " ++ e))
  | .ok _ =>
  match w.openDir opts.imagesDir with
  | .error e => ([], .error ("failed to open images directory: " ++ e))
  | .ok _ =>
  if opts.preDump then
    match w.preDump with
    | .error e => ([.preDumpCall], .error ("pre-dump failed: " ++ e))
    | .ok () => dumpPhase w pid opts [.preDumpCall]
  else
    dumpPhase w pid opts []

/-- C7: when the setup steps succeed and the structured library dump
fails, the driver attempts the library path exactly once and the
command-line fallback exactly once; if the fallback succeeds the
checkpoint succeeds, and if the fallback also fails the returned error
message contains both underlying failure causes. -/
theorem checkpointProcess_fallback (w : CriuWorld) (pid : Int)
    (opts : CheckpointOptions) (e1 : String)
    (hw : w.ensureDir opts.workDir = .ok ())
    (hi : w.ensureDir opts.imagesDir = .ok ())
    (how : ∃ fd, w.openDir opts.workDir = .ok fd)
    (hoi : ∃ fd, w.openDir opts.imagesDir = .ok fd)
    (hpre : opts.preDump = true → w.preDump = .ok ())
    (hdump : w.dump = .error e1) :
    ((CheckpointProcess w pid opts).1.count .libraryDump = 1 ∧
      (CheckpointProcess w pid opts).1.count .cmdDump = 1) ∧
    (CheckpointProcessCmd w pid opts = .ok () →
      (CheckpointProcess w pid opts).2 = .ok ()) ∧
    (∀ e2, CheckpointProcessCmd w pid opts = .error e2 →
      (CheckpointProcess w pid opts).2 =
        .error ("both go-criu and command-line CRIU failed.\nLibrary error: "
          ++ e1 ++ "\nCommand error: " ++ e2) ∧
      (∃ a b, ("both go-criu and command-line CRIU failed.\nLibrary error: "
          ++ e1 ++ "\nCommand error: " ++ e2) = a ++ e1 ++ b) ∧
      (∃ a b, ("both go-criu and command-line CRIU failed.\nLibrary error: "
          ++ e1 ++ "\nCommand error: " ++ e2) = a ++ e2 ++ b)) := by
  obtain ⟨fdw, hfdw⟩ := how
  obtain ⟨fdi, hfdi⟩ := hoi
  have hcp : CheckpointProcess w pid opts =
      dumpPhase w pid opts (if opts.preDump then [DumpAttempt.preDumpCall] else []) := by
    unfold CheckpointProcess
    rw [hw, hi, hfdw, hfdi]
    by_cases hb : opts.preDump
    · rw [if_pos hb, if_pos hb, hpre hb]
    · rw [if_neg hb, if_neg hb]
  rw [hcp]
  cases hc : CheckpointProcessCmd w pid opts with
  | ok u =>
    cases u
    simp only [dumpPhase, hdump, hc]
    refine ⟨⟨?_, ?_⟩, ?_, ?_⟩
    · by_cases hb : opts.preDump <;> simp [hb, List.count_append]
    · by_cases hb : opts.preDump <;> simp [hb, List.count_append]
    · intro _; trivial
    · intro e2 he2; exact nomatch he2
  | error e2 =>
    simp only [dumpPhase, hdump, hc]
    refine ⟨⟨?_, ?_⟩, ?_, ?_⟩
    · by_cases hb : opts.preDump <;> simp [hb, List.count_append]
    · by_cases hb : opts.preDump <;> simp [hb, List.count_append]
    · intro hok; exact nomatch hok
    · intro e2' he2'
      injection he2' with hceq
      subst hceq
      refine ⟨rfl, ?_, ?_⟩
      · exact ⟨"both go-criu and command-line CRIU failed.\nLibrary error: ",
          "\nCommand error: " ++ e2, by rw [String.append_assoc, String.append_assoc]⟩
      · exact ⟨"both go-criu and command-line CRIU failed.\nLibrary error: "
            ++ e1 ++ "\nCommand error: ", "", by rw [String.append_empty]⟩

/-- Concrete driver world for the C7 witness: setup succeeds, the
library dump fails with `E1`, the subprocess fails with `E2` and
combined output `OUT`. -/
def fallbackWorld : CriuWorld where
  ensureDir := fun _ => .ok ()
  openDir := fun _ => .ok 3
  preDump := .ok ()
  dump := .error "E1"
  execCriu := fun _ => ("OUT", .error "E2")

/-- Concrete options record for the C7 witness. -/
def fallbackOpts : CheckpointOptions :=
  ⟨"/w", "/i", "/l", 4, [], false, false, false, false, false, false, false⟩

/-- C7 witness: the fallback theorem evaluated in `fallbackWorld`,
where both paths fail: each path is attempted exactly once and the
combined error is returned. -/
theorem checkpointProcess_fallback_witness :
    (CheckpointProcess fallbackWorld 1 fallbackOpts).1.count DumpAttempt.libraryDump = 1 ∧
    (CheckpointProcess fallbackWorld 1 fallbackOpts).1.count DumpAttempt.cmdDump = 1 ∧
    (CheckpointProcess fallbackWorld 1 fallbackOpts).2 =
      .error ("both go-criu and command-line CRIU failed.\nLibrary error: "
        ++ "E1" ++ "\nCommand error: " ++ "CRIU checkpoint failed: E2\nOutput: OUT") := by
  have h := checkpointProcess_fallback fallbackWorld 1 fallbackOpts "E1"
    rfl rfl ⟨3, rfl⟩ ⟨3, rfl⟩ (fun hcontr => by cases hcontr) rfl
  exact ⟨h.1.1, h.1.2, (h.2.2 "CRIU checkpoint failed: E2\nOutput: OUT" rfl).1⟩

/-! ### Docker-side data model (pkg/docker/manager.go) -/

/-- JSON values, used both for the persisted artifacts and as the
representation of external Docker payloads (network endpoint settings)
that the repository stores and reloads without touching. -/
inductive Json where
  | null
  | bool (b : Bool)
  | num (n : Int)
  | str (s : String)
  | arr (elems : List Json)
  | obj (fields : List (String × Json))

/-- The fields of the Docker engine's `container.Resources` that the
repository reads (`Memory` in the analyzer) plus representative
companions; copied wholesale by `CreateRestoreContainer`. -/
structure Resources where
  memory : Int
  cpuShares : Int
  nanoCpus : Int
deriving Repr, DecidableEq

/-- The Docker engine's `container.RestartPolicy`, copied wholesale by
`CreateRestoreContainer`. -/
structure RestartPolicy where
  name : String
  maximumRetryCount : Int
deriving Repr, DecidableEq

/-- The fields of the Docker engine's `container.Config` used by the
repository (CreateRestoreContainer and the analyzer). -/
structure ContainerConfig where
  image : String
  cmd : List String
  entrypoint : List String
  env : List String
  workingDir : String
  user : String
  exposedPorts : List String
  labels : List (String × String)
  tty : Bool
  openStdin : Bool
  stdinOnce : Bool
deriving Repr, DecidableEq

/-- The fields of the Docker engine's `container.HostConfig` set or
read by the repository, plus representative carriers of the original
container's host configuration (binds, port bindings, devices, ...)
that the restore container must not inherit. -/
structure HostConfig where
  privileged : Bool
  pidMode : String
  ipcMode : String
  networkMode : String
  securityOpt : List String
  capAdd : List String
  resources : Resources
  restartPolicy : RestartPolicy
  binds : List String
  portBindings : List (String × String)
  devices : List String
  readonlyRootfs : Bool
  cgroupParent : String
  runtime : String
deriving Repr, DecidableEq

/-- The Docker engine's `types.MountPoint`, rows of
`ContainerState.Mounts`. -/
structure MountPoint where
  type : String
  name : String
  source : String
  destination : String
  driver : String
  mode : String
  rw : Bool
  propagation : String
deriving Repr, DecidableEq

/-- `ContainerState` (pkg/docker/manager.go, lines 22-39): the portable
snapshot of a running container. Go pointers are `Option`, Go maps are
association lists, `time.Time` is unix nanoseconds, and the unused
network endpoint settings are opaque JSON payloads. -/
structure ContainerState where
  id : String
  name : String
  image : String
  config : Option ContainerConfig
  hostConfig : Option HostConfig
  networkConfig : List (String × Json)
  mounts : List MountPoint
  processPID : Int
  created : Int
  rootFS : String
  runtime : String
  bundlePath : String
  cgroupPath : String
  namespaces : List (String × String)
  environment : List (String × String)
  labels : List (String × String)

/-- The container config literal built by `CreateRestoreContainer`
(pkg/docker/manager.go, lines 164-176) from the original state and its
dereferenced `Config`. -/
def buildRestoreContainerConfig (s : ContainerState) (cfg : ContainerConfig) :
    ContainerConfig :=
  { image := s.image
    cmd := cfg.cmd
    entrypoint := cfg.entrypoint
    env := cfg.env
    workingDir := cfg.workingDir
    user := cfg.user
    exposedPorts := cfg.exposedPorts
    labels := cfg.labels
    tty := cfg.tty
    openStdin := cfg.openStdin
    stdinOnce := cfg.stdinOnce }

/-- The host config literal built by `CreateRestoreContainer`
(pkg/docker/manager.go, lines 179-189): fixed permissive settings plus
the original's `Resources` and `RestartPolicy`; every field not named
in the literal is the Go zero value. -/
def buildRestoreHostConfig (orig : HostConfig) : HostConfig :=
  { privileged := true
    pidMode := "host"
    ipcMode := "host"
    networkMode := "host"
    securityOpt := ["seccomp=unconfined"]
    capAdd := ["SYS_PTRACE", "SYS_ADMIN"]
    resources := orig.resources
    restartPolicy := orig.restartPolicy
    binds := []
    portBindings := []
    devices := []
    readonlyRootfs := false
    cgroupParent := ""
    runtime := "" }

/-- The configuration pair `CreateRestoreContainer` hands to the
runtime's create call; `none` models the nil-pointer dereference that
occurs when the original state lacks a config or host config. -/
def CreateRestoreContainer (s : ContainerState) :
    Option (ContainerConfig × HostConfig) :=
  match s.config, s.hostConfig with
  | some cfg, some hc => some (buildRestoreContainerConfig s cfg, buildRestoreHostConfig hc)
  | _, _ => none

/-- C10: the restore container's host configuration is built from
scratch — privileged, host PID/IPC/network modes, seccomp unconfined,
SYS_PTRACE and SYS_ADMIN — carrying over only Resources and
RestartPolicy from the original host config; every other host-config
field is the zero value, and two originals agreeing on Resources and
RestartPolicy yield identical restore host configs whatever their other
fields (nothing else is carried over). -/
theorem createRestoreContainer_hostConfig (s : ContainerState)
    (cfg : ContainerConfig) (orig : HostConfig)
    (hcfg : s.config = some cfg) (hhc : s.hostConfig = some orig) :
    ∃ rc, CreateRestoreContainer s = some rc ∧
      rc.2.privileged = true ∧
      rc.2.pidMode = "host" ∧
      rc.2.ipcMode = "host" ∧
      rc.2.networkMode = "host" ∧
      rc.2.securityOpt = ["seccomp=unconfined"] ∧
      rc.2.capAdd = ["SYS_PTRACE", "SYS_ADMIN"] ∧
      rc.2.resources = orig.resources ∧
      rc.2.restartPolicy = orig.restartPolicy ∧
      rc.2.binds = [] ∧
      rc.2.portBindings = [] ∧
      rc.2.devices = [] ∧
      rc.2.readonlyRootfs = false ∧
      rc.2.cgroupParent = "" ∧
      rc.2.runtime = "" ∧
      (∀ orig2 : HostConfig, orig2.resources = orig.resources →
        orig2.restartPolicy = orig.restartPolicy →
        buildRestoreHostConfig orig2 = rc.2) := by
  refine ⟨(buildRestoreContainerConfig s cfg, buildRestoreHostConfig orig), ?_,
    rfl, rfl, rfl, rfl, rfl, rfl, rfl, rfl, rfl, rfl, rfl, rfl, rfl, rfl, ?_⟩
  · unfold CreateRestoreContainer
    rw [hcfg, hhc]
  · intro orig2 hres hrp
    simp [buildRestoreHostConfig, hres, hrp]

/-- A concrete original container state for the C10 witness, with a
heavily customized host config. -/
def witnessState : ContainerState :=
  { id := "0123456789abcdef"
    name := "c1"
    image := "busybox:latest"
    config := some ⟨"busybox:latest", ["sleep", "300"], [], ["PATH=/bin"], "/", "",
      ["80/tcp"], [("app", "demo")], false, false, false⟩
    hostConfig := some ⟨false, "", "", "bridge", ["label=disable"], [],
      ⟨1024, 2, 0⟩, ⟨"always", 3⟩, ["/tmp/d1:/data"], [("80/tcp", "8080")],
      ["/dev/fuse"], true, "/docker", "runc"⟩
    networkConfig := []
    mounts := []
    processPID := 4242
    created := 1700000000000000000
    rootFS := "/var/lib/docker/overlay2/x/merged"
    runtime := "runc"
    bundlePath := "/run/docker/runtime-runc/moby/0123456789abcdef"
    cgroupPath := ""
    namespaces := []
    environment := [("PATH", "/bin")]
    labels := [("app", "demo")] }

/-- C10 witness: the frame theorem applied to `witnessState`, whose
original host config is non-privileged with binds, port bindings and
devices set, none of which reach the restore host config. -/
theorem createRestoreContainer_hostConfig_witness :
    ∃ rc, CreateRestoreContainer witnessState = some rc ∧
      rc.2.privileged = true ∧
      rc.2.pidMode = "host" ∧
      rc.2.ipcMode = "host" ∧
      rc.2.networkMode = "host" ∧
      rc.2.securityOpt = ["seccomp=unconfined"] ∧
      rc.2.capAdd = ["SYS_PTRACE", "SYS_ADMIN"] ∧
      rc.2.resources = (⟨1024, 2, 0⟩ : Resources) ∧
      rc.2.restartPolicy = (⟨"always", 3⟩ : RestartPolicy) ∧
      rc.2.binds = [] ∧
      rc.2.portBindings = [] ∧
      rc.2.devices = [] ∧
      rc.2.readonlyRootfs = false ∧
      rc.2.cgroupParent = "" ∧
      rc.2.runtime = "" ∧
      (∀ orig2 : HostConfig, orig2.resources = (⟨1024, 2, 0⟩ : Resources) →
        orig2.restartPolicy = (⟨"always", 3⟩ : RestartPolicy) →
        buildRestoreHostConfig orig2 = rc.2) :=
  createRestoreContainer_hostConfig witnessState
    ⟨"busybox:latest", ["sleep", "300"], [], ["PATH=/bin"], "/", "",
      ["80/tcp"], [("app", "demo")], false, false, false⟩
    ⟨false, "", "", "bridge", ["label=disable"], [],
      ⟨1024, 2, 0⟩, ⟨"always", 3⟩, ["/tmp/d1:/data"], [("80/tcp", "8080")],
      ["/dev/fuse"], true, "/docker", "runc"⟩
    rfl rfl

/-! ### Restore orchestrator (pkg/inspect/viewer.go, restore.Manager) -/

/-- `filepath.Join` restricted to the clean relative segments the
orchestrator uses. -/
def joinPath (a b : String) : String := a ++ "/" ++ b

/-- `CheckpointMetadata` (checkpoint.Manager), the composite terminal
artifact. -/
structure CheckpointMetadata where
  containerState : Option ContainerState
  mountMappings : List MountMapping
  checkpointPath : String
  createdAt : String
  version : String

/-- `RestoreConfig` (restore.Manager). -/
structure RestoreConfig where
  checkpointDir : String
  newContainerName : String
  logLevel : Int
  manageCgroups : Bool
  tcpEstablished : Bool
  restoreSibling : Bool
  shell : Bool
  validateEnv : Bool
  autoFixMounts : Bool
  skipMounts : List String

/-- `RestoreOptions` (pkg/checkpoint/criu.go) handed to the CRIU
restore driver. -/
structure RestoreOptions where
  workDir : String
  imagesDir : String
  logFile : String
  logLevel : Int
  external : List String
  extMountMap : List String
  skipMnt : List String
  pidFile : String
  manageCgroups : Bool
  tcpEstablished : Bool
  restoreSibling : Bool
  shell : Bool
  emptyNs : Nat

/-- `BuildExtMountMapArgs` (pkg/checkpoint/criu.go, lines 227-239):
one `auto:<container_path>:<host_path>` entry per external mapping with
a non-empty host path. -/
def BuildExtMountMapArgs (mappings : List MountMapping) : List String :=
  (mappings.filter (fun m => m.isExternal && m.hostPath != "")).map
    (fun m => "auto:" ++ m.containerPath ++ ":" ++ m.hostPath)

/-- Oracles for the effectful calls the restore orchestrator makes:
the checkpoint directory's filesystem, artifact loading, and the
Docker/CRIU collaborators. -/
structure RestoreWorld where
  dirExists : String → Bool
  fileExists : String → Bool
  listFiles : String → Except String (List String)
  getCheckpointInfo : String → Except String CheckpointMetadata
  loadMountMappings : String → Except String (List MountMapping)
  createRestoreContainer : String → Except String String
  mountSourceExists : String → Bool
  ensureDir : String → Except String Unit
  startContainer : String → Except String Unit
  getContainerPID : String → Except String Int
  stopContainer : String → Except String Unit
  createExtMountMapFile : Except String Unit
  criuRestore : RestoreOptions → Except String Unit
  getContainerState : String → Except String ContainerState
  getContainerLogs : String → Except String String

/-- The four entries of the `requiredFiles` slice in
`ValidateCheckpoint` (checkpoint.Manager). -/
def requiredFiles : List String :=
  ["container_metadata.json", "mount_mappings.json", "checkpoint_metadata.json", "images"]

/-- The `for _, file := range requiredFiles` loop of
`ValidateCheckpoint`: `images` must be a directory, the rest files. -/
def checkRequiredFiles (w : RestoreWorld) (dir : String) :
    List String → Except String Unit
  | [] => .ok ()
  | f :: rest =>
    if f == "images" then
      if w.dirExists (joinPath dir f) then checkRequiredFiles w dir rest
      else .error ("missing required directory: " ++ f)
    else
      if w.fileExists (joinPath dir f) then checkRequiredFiles w dir rest
      else .error ("missing required file: " ++ f)

/-- `ValidateCheckpoint` (checkpoint.Manager, lines 151-191): the
checkpoint directory must exist, contain the three JSON artifacts and
an `images` directory, and the images directory must list
successfully and be non-empty. -/
def ValidateCheckpoint (w : RestoreWorld) (dir : String) : Except String Unit :=
  if !(w.dirExists dir) then
    .error ("checkpoint directory does not exist: " ++ dir)
  else
    match checkRequiredFiles w dir requiredFiles with
    | .error e => .error e
    | .ok () =>
      match w.listFiles (joinPath dir "images") with
      | .error e => .error ("failed to list images directory: " ++ e)
      | .ok files =>
        if files.length == 0 then .error "checkpoint images directory is empty"
        else .ok ()

/-- `checkPtraceConflicts` (restore.Manager): a stub that always
succeeds. -/
def checkPtraceConflicts : Except String Unit := .ok ()

/-- `validateRestoreEnvironment` (restore.Manager, lines 585-613):
missing mount sources are only counted and logged; the sole error path
is the (stubbed) ptrace-conflict check. -/
def validateRestoreEnvironment (_s : Option ContainerState)
    (_mappings : List MountMapping) : Except String Unit :=
  match checkPtraceConflicts with
  | .error e => .error ("ptrace conflict detected: " ++ e)
  | .ok () => .ok ()

/-- `prepareMountNamespace` (restore.Manager, lines 526-546): with
auto-fix on, create each missing external mount source; without it,
only log. -/
def prepareMountNamespace (w : RestoreWorld) (autoFix : Bool) :
    List MountMapping → Except String Unit
  | [] => .ok ()
  | m :: rest =>
    if m.isExternal && m.hostPath != "" && !(w.mountSourceExists m.hostPath) then
      if autoFix then
        match w.ensureDir m.hostPath with
        | .error e => .error ("failed to create mount source " ++ m.hostPath ++ ": " ++ e)
        | .ok () => prepareMountNamespace w autoFix rest
      else
        prepareMountNamespace w autoFix rest
    else
      prepareMountNamespace w autoFix rest

/-- `verifyRestoration` (restore.Manager, lines 621-645): a failed
runtime re-query is logged and swallowed (`return nil`); on success the
log tail is fetched best-effort. Every path returns nil. -/
def verifyRestoration (w : RestoreWorld) (containerName : String) :
    Except String Unit :=
  match w.getContainerState containerName with
  | .error _ => .ok ()
  | .ok state =>
    match w.getContainerLogs state.id with
    | _ => .ok ()

/-- The restore options record built in step 10 of `Restore`
(restore.Manager, lines 487-509). -/
def buildRestoreOpts (config : RestoreConfig)
    (mountMappings : List MountMapping) : RestoreOptions :=
  { workDir := config.checkpointDir
    imagesDir := joinPath config.checkpointDir "images"
    logFile := joinPath config.checkpointDir "restore.log"
    logLevel := config.logLevel
    external := buildExternalMountArgs mountMappings config.skipMounts
    extMountMap := BuildExtMountMapArgs mountMappings
    skipMnt := config.skipMounts
    pidFile := ""
    manageCgroups := config.manageCgroups
    tcpEstablished := config.tcpEstablished
    restoreSibling := config.restoreSibling
    shell := config.shell
    emptyNs := 0x40 }

/-- The steps of the restore workflow, recorded as they execute. -/
inductive RestoreStep where
  | validate
  | loadMetadata
  | loadMounts
  | validateEnvStep
  | createShell
  | prepareMounts
  | startShell
  | capturePID
  | stopShell
  | extMountMapFile
  | engineRestore
  | verify
deriving DecidableEq, Repr

/-- `Restore` (restore.Manager, lines 424-524): validation, metadata and
mount loading, optional environment validation, shell-container
creation, mount preparation, start / PID capture / non-fatal stop,
ext-mount-map file creation, CRIU restore, and verification. The first
component records the steps reached. -/
def Restore (w : RestoreWorld) (config : RestoreConfig) :
    List RestoreStep × Except String Unit :=
  match ValidateCheckpoint w config.checkpointDir with
  | .error e => ([.validate], .error ("checkpoint validation failed: " ++ e))
  | .ok () =>
  match w.getCheckpointInfo config.checkpointDir with
  | .error e => ([.validate, .loadMetadata],
      .error ("failed to load checkpoint metadata: " ++ e))
  | .ok metadata =>
  match w.loadMountMappings (joinPath config.checkpointDir "mount_mappings.json") with
  | .error e => ([.validate, .loadMetadata, .loadMounts],
      .error ("failed to load mount mappings: " ++ e))
  | .ok mountMappings =>
  let steps0 := [RestoreStep.validate, .loadMetadata, .loadMounts] ++
    (if config.validateEnv then [RestoreStep.validateEnvStep] else [])
  match (if config.validateEnv then
      validateRestoreEnvironment metadata.containerState mountMappings
    else .ok ()) with
  | .error e => (steps0, .error ("restore environment validation failed: " ++ e))
  | .ok () =>
  match w.createRestoreContainer config.newContainerName with
  | .error e => (steps0 ++ [.createShell],
      .error ("failed to create restore container: " ++ e))
  | .ok containerID =>
  match prepareMountNamespace w config.autoFixMounts mountMappings with
  | .error e => (steps0 ++ [.createShell, .prepareMounts],
      .error ("failed to prepare mount namespace: " ++ e))
  | .ok () =>
  match w.startContainer containerID with
  | .error e => (steps0 ++ [.createShell, .prepareMounts, .startShell],
      .error ("failed to start restore container: " ++ e))
  | .ok () =>
  match w.getContainerPID containerID with
  | .error e => (steps0 ++ [.createShell, .prepareMounts, .startShell, .capturePID],
      .error ("failed to get container PID: " ++ e))
  | .ok _ =>
  -- a failed graceful stop is logged and ignored
  match w.stopContainer containerID with
  | _ =>
  match w.createExtMountMapFile with
  | .error e => (steps0 ++ [.createShell, .prepareMounts, .startShell, .capturePID,
      .stopShell, .extMountMapFile],
      .error ("failed to create external mount map: " ++ e))
  | .ok () =>
  match w.criuRestore (buildRestoreOpts config mountMappings) with
  | .error e => (steps0 ++ [.createShell, .prepareMounts, .startShell, .capturePID,
      .stopShell, .extMountMapFile, .engineRestore],
      .error ("CRIU restore failed: " ++ e))
  | .ok () =>
  match verifyRestoration w config.newContainerName with
  | .error e => (steps0 ++ [.createShell, .prepareMounts, .startShell, .capturePID,
      .stopShell, .extMountMapFile, .engineRestore, .verify],
      .error ("restore verification failed: " ++ e))
  | .ok () => (steps0 ++ [.createShell, .prepareMounts, .startShell, .capturePID,
      .stopShell, .extMountMapFile, .engineRestore, .verify], .ok ())

/-- The four required restore-time artifacts of the claim: the three
JSON files and a non-empty images directory. -/
def requiredArtifactsPresent (w : RestoreWorld) (dir : String) : Prop :=
  w.fileExists (joinPath dir "container_metadata.json") = true ∧
  w.fileExists (joinPath dir "mount_mappings.json") = true ∧
  w.fileExists (joinPath dir "checkpoint_metadata.json") = true ∧
  w.dirExists (joinPath dir "images") = true ∧
  ∃ files, w.listFiles (joinPath dir "images") = .ok files ∧ files ≠ []

theorem validateCheckpoint_ok_implies (w : RestoreWorld) (dir : String)
    (h : ValidateCheckpoint w dir = .ok ()) : requiredArtifactsPresent w dir := by
  unfold ValidateCheckpoint at h
  by_cases hd : w.dirExists dir
  · rw [if_neg (by simp [hd])] at h
    revert h
    simp only [requiredFiles, checkRequiredFiles]
    by_cases h1 : w.fileExists (joinPath dir "container_metadata.json") <;>
      simp only [h1, if_true, if_false, Bool.false_eq_true, reduceIte]
    · by_cases h2 : w.fileExists (joinPath dir "mount_mappings.json") <;>
        simp only [h2, if_true, if_false, Bool.false_eq_true, reduceIte]
      · by_cases h3 : w.fileExists (joinPath dir "checkpoint_metadata.json") <;>
          simp only [h3, if_true, if_false, Bool.false_eq_true, reduceIte]
        · by_cases h4 : w.dirExists (joinPath dir "images") <;>
            simp only [h4, if_true, if_false, Bool.false_eq_true, reduceIte]
          · intro h
            refine ⟨h1, h2, h3, h4, ?_⟩
            revert h
            cases hlist : w.listFiles (joinPath dir "images") with
            | error e => intro h; cases h
            | ok files =>
              by_cases hlen : files.length = 0
              · simp [hlen]
              · intro _
                exact ⟨files, rfl, fun hnil => hlen (by simp [hnil])⟩
          · intro h; cases h
        · intro h; cases h
      · intro h; cases h
    · intro h; cases h
  · rw [if_pos (by simp [hd])] at h
    cases h

/-- C4: a checkpoint directory missing any of the four required
artifacts makes Restore fail during the validation step: the result is
an error, and neither the shell-container-creation step nor the engine
restore step is ever reached. -/
theorem restore_validation_gate (w : RestoreWorld) (config : RestoreConfig)
    (hmiss : ¬ requiredArtifactsPresent w config.checkpointDir) :
    (∃ e, (Restore w config).2 = .error e) ∧
    RestoreStep.createShell ∉ (Restore w config).1 ∧
    RestoreStep.engineRestore ∉ (Restore w config).1 := by
  have hval : ∃ e, ValidateCheckpoint w config.checkpointDir = .error e := by
    cases hv : ValidateCheckpoint w config.checkpointDir with
    | error e => exact ⟨e, rfl⟩
    | ok u =>
      cases u
      exact absurd (validateCheckpoint_ok_implies w config.checkpointDir hv) hmiss
  obtain ⟨e, he⟩ := hval
  have hres : Restore w config =
      ([RestoreStep.validate], .error ("checkpoint validation failed: " ++ e)) := by
    unfold Restore
    rw [he]
  rw [hres]
  exact ⟨⟨"checkpoint validation failed: " ++ e, rfl⟩, by simp, by simp⟩

/-- A restore world for the C4 witness whose checkpoint directory is
entirely empty. -/
def emptyCheckpointWorld : RestoreWorld where
  dirExists := fun _ => false
  fileExists := fun _ => false
  listFiles := fun _ => .error "no such directory"
  getCheckpointInfo := fun _ => .error "missing"
  loadMountMappings := fun _ => .error "missing"
  createRestoreContainer := fun _ => .ok "id"
  mountSourceExists := fun _ => true
  ensureDir := fun _ => .ok ()
  startContainer := fun _ => .ok ()
  getContainerPID := fun _ => .ok 1
  stopContainer := fun _ => .ok ()
  createExtMountMapFile := .ok ()
  criuRestore := fun _ => .ok ()
  getContainerState := fun _ => .error "not found"
  getContainerLogs := fun _ => .error "not found"

/-- A restore configuration shared by the C4 and C8 witnesses. -/
def witnessRestoreConfig : RestoreConfig :=
  ⟨"/cp/c1/chk", "c1-restored", 4, false, false, false, true, true, true, []⟩

/-- C4 witness: the validation-gate theorem in a world with no
checkpoint artifacts at all. -/
theorem restore_validation_gate_witness :
    (∃ e, (Restore emptyCheckpointWorld witnessRestoreConfig).2 = .error e) ∧
    RestoreStep.createShell ∉ (Restore emptyCheckpointWorld witnessRestoreConfig).1 ∧
    RestoreStep.engineRestore ∉ (Restore emptyCheckpointWorld witnessRestoreConfig).1 :=
  restore_validation_gate emptyCheckpointWorld witnessRestoreConfig
    (fun h => by
      have := h.1
      simp [emptyCheckpointWorld] at this)

theorem verifyRestoration_always_ok (w : RestoreWorld) (name : String) :
    verifyRestoration w name = .ok () := by
  unfold verifyRestoration
  cases w.getContainerState name with
  | error e => rfl
  | ok state => rfl

/-- C8: once every step through the engine restore call has succeeded,
Restore returns success whatever the runtime re-query returns: the
verification step's runtime query failure is absorbed inside
`verifyRestoration` (logged, nil returned), so it is never propagated.
No hypothesis constrains the verification oracles (`getContainerState`,
`getContainerLogs`) or the non-fatal stop. -/
theorem restore_verification_nonfatal (w : RestoreWorld) (config : RestoreConfig)
    (metadata : CheckpointMetadata) (mountMappings : List MountMapping)
    (containerID : String)
    (hval : ValidateCheckpoint w config.checkpointDir = .ok ())
    (hmeta : w.getCheckpointInfo config.checkpointDir = .ok metadata)
    (hmounts : w.loadMountMappings
      (joinPath config.checkpointDir "mount_mappings.json") = .ok mountMappings)
    (hcreate : w.createRestoreContainer config.newContainerName = .ok containerID)
    (hprep : prepareMountNamespace w config.autoFixMounts mountMappings = .ok ())
    (hstart : w.startContainer containerID = .ok ())
    (hpid : ∃ pid, w.getContainerPID containerID = .ok pid)
    (hext : w.createExtMountMapFile = .ok ())
    (hcriu : w.criuRestore (buildRestoreOpts config mountMappings) = .ok ()) :
    (Restore w config).2 = .ok () ∧
    RestoreStep.engineRestore ∈ (Restore w config).1 := by
  obtain ⟨pid, hpid⟩ := hpid
  have henv : (if config.validateEnv then
      validateRestoreEnvironment metadata.containerState mountMappings
    else .ok ()) = .ok () := by
    by_cases hb : config.validateEnv <;>
      simp [hb, validateRestoreEnvironment, checkPtraceConflicts]
  have hres : Restore w config =
      ([RestoreStep.validate, .loadMetadata, .loadMounts] ++
        (if config.validateEnv then [RestoreStep.validateEnvStep] else []) ++
        [.createShell, .prepareMounts, .startShell, .capturePID,
          .stopShell, .extMountMapFile, .engineRestore, .verify], .ok ()) := by
    unfold Restore
    rw [hval, hmeta, hmounts]
    simp only [henv, hcreate, hprep, hstart, hpid, hext, hcriu,
      verifyRestoration_always_ok]
  rw [hres]
  exact ⟨rfl, by simp⟩

/-- A restore world for the C8 witness: every pipeline step succeeds
but the post-restore runtime re-query fails and the graceful stop of
the shell container fails too. -/
def verifyFailWorld : RestoreWorld where
  dirExists := fun _ => true
  fileExists := fun _ => true
  listFiles := fun _ => .ok ["pages-1.img"]
  getCheckpointInfo := fun _ => .ok ⟨none, [], "/cp/c1/chk", "2024-01-01T00:00:00Z", "1.0"⟩
  loadMountMappings := fun _ => .ok []
  createRestoreContainer := fun _ => .ok "0123456789abcdef"
  mountSourceExists := fun _ => true
  ensureDir := fun _ => .ok ()
  startContainer := fun _ => .ok ()
  getContainerPID := fun _ => .ok 4242
  stopContainer := fun _ => .error "stop timed out"
  createExtMountMapFile := .ok ()
  criuRestore := fun _ => .ok ()
  getContainerState := fun _ => .error "container not running"
  getContainerLogs := fun _ => .error "no logs"

/-- C8 witness: in `verifyFailWorld` the runtime re-query fails, yet
Restore reaches the engine restore step and returns success. -/
theorem restore_verification_nonfatal_witness :
    (Restore verifyFailWorld witnessRestoreConfig).2 = .ok () ∧
    RestoreStep.engineRestore ∈ (Restore verifyFailWorld witnessRestoreConfig).1 :=
  restore_verification_nonfatal verifyFailWorld witnessRestoreConfig
    ⟨none, [], "/cp/c1/chk", "2024-01-01T00:00:00Z", "1.0"⟩ [] "0123456789abcdef"
    rfl rfl rfl rfl rfl rfl ⟨4242, rfl⟩ rfl rfl

/-! ### JSON persistence round-trip (SaveMountMappings / LoadMountMappings,
SaveContainerMetadata / LoadContainerMetadata)

`encoding/json` marshalling of the persisted structs is modelled as
functions into the `Json` value type, and unmarshalling as by-name
field lookup; the repository's own structs use their snake_case tags,
the Docker engine's types their exported field names. The byte-level
rendering and parsing (`MarshalIndent` / the scanner) belong to the Go
standard library and cancel out; `time.Time` is carried as its
nanosecond value. -/

/-- By-name field lookup in a JSON object, as `encoding/json` resolves
struct fields. -/
def jLookup : List (String × Json) → String → Option Json
  | [], _ => none
  | (k, v) :: rest, key => if k == key then some v else jLookup rest key

def encStrList (l : List String) : Json := .arr (l.map .str)

def decStrElems : List Json → Except String (List String)
  | [] => .ok []
  | .str s :: rest =>
    match decStrElems rest with
    | .ok l => .ok (s :: l)
    | .error e => .error e
  | _ => .error "expected string"

def decStrList : Json → Except String (List String)
  | .arr es => decStrElems es
  | _ => .error "expected array"

theorem decStrList_enc (l : List String) : decStrList (encStrList l) = .ok l := by
  unfold decStrList encStrList
  induction l with
  | nil => rfl
  | cons s rest ih =>
    simp only [List.map_cons, decStrElems]
    simp only [decStrList, encStrList] at ih
    rw [ih]

/-- A Go `map[string]string`, marshalled as an object of string
values. -/
def encStrPairs (l : List (String × String)) : Json :=
  .obj (l.map fun p => (p.1, .str p.2))

def decStrPairElems : List (String × Json) → Except String (List (String × String))
  | [] => .ok []
  | (k, .str v) :: rest =>
    match decStrPairElems rest with
    | .ok l => .ok ((k, v) :: l)
    | .error e => .error e
  | _ => .error "expected string value"

def decStrPairs : Json → Except String (List (String × String))
  | .obj fs => decStrPairElems fs
  | _ => .error "expected object"

theorem decStrPairs_enc (l : List (String × String)) :
    decStrPairs (encStrPairs l) = .ok l := by
  unfold decStrPairs encStrPairs
  induction l with
  | nil => rfl
  | cons p rest ih =>
    simp only [List.map_cons, decStrPairElems]
    simp only [decStrPairs, encStrPairs] at ih
    rw [ih]

/-- A Go `map[Port]struct{}` (`ExposedPorts`), marshalled as an object
with empty-object values. -/
def encPortSet (l : List String) : Json :=
  .obj (l.map fun s => (s, .obj []))

def decPortSet : Json → Except String (List String)
  | .obj fs => .ok (fs.map fun p => p.1)
  | _ => .error "expected object"

theorem decPortSet_enc (l : List String) : decPortSet (encPortSet l) = .ok l := by
  simp [encPortSet, decPortSet, List.map_map, Function.comp_def]

/-- Opaque JSON payloads (network endpoint settings) are stored and
reloaded verbatim. -/
def encJsonPairs (l : List (String × Json)) : Json := .obj l

def decJsonPairs : Json → Except String (List (String × Json))
  | .obj fs => .ok fs
  | _ => .error "expected object"

def encResources (r : Resources) : Json :=
  .obj [("Memory", .num r.memory), ("CpuShares", .num r.cpuShares),
        ("NanoCpus", .num r.nanoCpus)]

def decResources : Json → Except String Resources
  | .obj fs =>
    match jLookup fs "Memory" with
    | some (.num memory) =>
      match jLookup fs "CpuShares" with
      | some (.num cpuShares) =>
        match jLookup fs "NanoCpus" with
        | some (.num nanoCpus) => .ok ⟨memory, cpuShares, nanoCpus⟩
        | _ => .error "NanoCpus"
      | _ => .error "CpuShares"
    | _ => .error "Memory"
  | _ => .error "expected object"

def encRestartPolicy (r : RestartPolicy) : Json :=
  .obj [("Name", .str r.name), ("MaximumRetryCount", .num r.maximumRetryCount)]

def decRestartPolicy : Json → Except String RestartPolicy
  | .obj fs =>
    match jLookup fs "Name" with
    | some (.str name) =>
      match jLookup fs "MaximumRetryCount" with
      | some (.num n) => .ok ⟨name, n⟩
      | _ => .error "MaximumRetryCount"
    | _ => .error "Name"
  | _ => .error "expected object"

def encMountPoint (m : MountPoint) : Json :=
  .obj [("Type", .str m.type), ("Name", .str m.name), ("Source", .str m.source),
        ("Destination", .str m.destination), ("Driver", .str m.driver),
        ("Mode", .str m.mode), ("RW", .bool m.rw),
        ("Propagation", .str m.propagation)]

def decMountPoint : Json → Except String MountPoint
  | .obj fs =>
    match jLookup fs "Type" with
    | some (.str type) =>
      match jLookup fs "Name" with
      | some (.str name) =>
        match jLookup fs "Source" with
        | some (.str source) =>
          match jLookup fs "Destination" with
          | some (.str destination) =>
            match jLookup fs "Driver" with
            | some (.str driver) =>
              match jLookup fs "Mode" with
              | some (.str mode) =>
                match jLookup fs "RW" with
                | some (.bool rw) =>
                  match jLookup fs "Propagation" with
                  | some (.str propagation) =>
                    .ok ⟨type, name, source, destination, driver, mode, rw, propagation⟩
                  | _ => .error "Propagation"
                | _ => .error "RW"
              | _ => .error "Mode"
            | _ => .error "Driver"
          | _ => .error "Destination"
        | _ => .error "Source"
      | _ => .error "Name"
    | _ => .error "Type"
  | _ => .error "expected object"

theorem decMountPoint_enc (m : MountPoint) : decMountPoint (encMountPoint m) = .ok m := rfl

def encMountPointList (l : List MountPoint) : Json := .arr (l.map encMountPoint)

def decMountPointElems : List Json → Except String (List MountPoint)
  | [] => .ok []
  | e :: rest =>
    match decMountPoint e with
    | .ok m =>
      match decMountPointElems rest with
      | .ok l => .ok (m :: l)
      | .error err => .error err
    | .error err => .error err

def decMountPointList : Json → Except String (List MountPoint)
  | .arr es => decMountPointElems es
  | _ => .error "expected array"

theorem decMountPointList_enc (l : List MountPoint) :
    decMountPointList (encMountPointList l) = .ok l := by
  unfold decMountPointList encMountPointList
  induction l with
  | nil => rfl
  | cons m rest ih =>
    simp only [List.map_cons, decMountPointElems, decMountPoint_enc]
    simp only [decMountPointList, encMountPointList] at ih
    rw [ih]

def encContainerConfig (c : ContainerConfig) : Json :=
  .obj [("Image", .str c.image), ("Cmd", encStrList c.cmd),
        ("Entrypoint", encStrList c.entrypoint), ("Env", encStrList c.env),
        ("WorkingDir", .str c.workingDir), ("User", .str c.user),
        ("ExposedPorts", encPortSet c.exposedPorts),
        ("Labels", encStrPairs c.labels), ("Tty", .bool c.tty),
        ("OpenStdin", .bool c.openStdin), ("StdinOnce", .bool c.stdinOnce)]

def decContainerConfig : Json → Except String ContainerConfig
  | .obj fs =>
    match jLookup fs "Image" with
    | some (.str image) =>
      match jLookup fs "Cmd" with
      | some jcmd =>
        match decStrList jcmd with
        | .ok cmd =>
          match jLookup fs "Entrypoint" with
          | some jep =>
            match decStrList jep with
            | .ok entrypoint =>
              match jLookup fs "Env" with
              | some jenv =>
                match decStrList jenv with
                | .ok env =>
                  match jLookup fs "WorkingDir" with
                  | some (.str workingDir) =>
                    match jLookup fs "User" with
                    | some (.str user) =>
                      match jLookup fs "ExposedPorts" with
                      | some jep2 =>
                        match decPortSet jep2 with
                        | .ok exposedPorts =>
                          match jLookup fs "Labels" with
                          | some jlab =>
                            match decStrPairs jlab with
                            | .ok labels =>
                              match jLookup fs "Tty" with
                              | some (.bool tty) =>
                                match jLookup fs "OpenStdin" with
                                | some (.bool openStdin) =>
                                  match jLookup fs "StdinOnce" with
                                  | some (.bool stdinOnce) =>
                                    .ok ⟨image, cmd, entrypoint, env, workingDir,
                                      user, exposedPorts, labels, tty, openStdin, stdinOnce⟩
                                  | _ => .error "StdinOnce"
                                | _ => .error "OpenStdin"
                              | _ => .error "Tty"
                            | .error e => .error e
                          | _ => .error "Labels"
                        | .error e => .error e
                      | _ => .error "ExposedPorts"
                    | _ => .error "User"
                  | _ => .error "WorkingDir"
                | .error e => .error e
              | _ => .error "Env"
            | .error e => .error e
          | _ => .error "Entrypoint"
        | .error e => .error e
      | _ => .error "Cmd"
    | _ => .error "Image"
  | _ => .error "expected object"

theorem decContainerConfig_enc (c : ContainerConfig) :
    decContainerConfig (encContainerConfig c) = .ok c := by
  simp [decContainerConfig, encContainerConfig, jLookup,
    decStrList_enc, decPortSet_enc, decStrPairs_enc]

def encHostConfig (h : HostConfig) : Json :=
  .obj [("Privileged", .bool h.privileged), ("PidMode", .str h.pidMode),
        ("IpcMode", .str h.ipcMode), ("NetworkMode", .str h.networkMode),
        ("SecurityOpt", encStrList h.securityOpt), ("CapAdd", encStrList h.capAdd),
        ("Resources", encResources h.resources),
        ("RestartPolicy", encRestartPolicy h.restartPolicy),
        ("Binds", encStrList h.binds), ("PortBindings", encStrPairs h.portBindings),
        ("Devices", encStrList h.devices), ("ReadonlyRootfs", .bool h.readonlyRootfs),
        ("CgroupParent", .str h.cgroupParent), ("Runtime", .str h.runtime)]

def decHostConfig : Json → Except String HostConfig
  | .obj fs =>
    match jLookup fs "Privileged" with
    | some (.bool privileged) =>
      match jLookup fs "PidMode" with
      | some (.str pidMode) =>
        match jLookup fs "IpcMode" with
        | some (.str ipcMode) =>
          match jLookup fs "NetworkMode" with
          | some (.str networkMode) =>
            match jLookup fs "SecurityOpt" with
            | some jso =>
              match decStrList jso with
              | .ok securityOpt =>
                match jLookup fs "CapAdd" with
                | some jca =>
                  match decStrList jca with
                  | .ok capAdd =>
                    match jLookup fs "Resources" with
                    | some jres =>
                      match decResources jres with
                      | .ok resources =>
                        match jLookup fs "RestartPolicy" with
                        | some jrp =>
                          match decRestartPolicy jrp with
                          | .ok restartPolicy =>
                            match jLookup fs "Binds" with
                            | some jb =>
                              match decStrList jb with
                              | .ok binds =>
                                match jLookup fs "PortBindings" with
                                | some jpb =>
                                  match decStrPairs jpb with
                                  | .ok portBindings =>
                                    match jLookup fs "Devices" with
                                    | some jd =>
                                      match decStrList jd with
                                      | .ok devices =>
                                        match jLookup fs "ReadonlyRootfs" with
                                        | some (.bool readonlyRootfs) =>
                                          match jLookup fs "CgroupParent" with
                                          | some (.str cgroupParent) =>
                                            match jLookup fs "Runtime" with
                                            | some (.str runtime) =>
                                              .ok ⟨privileged, pidMode, ipcMode,
                                                networkMode, securityOpt, capAdd,
                                                resources, restartPolicy, binds,
                                                portBindings, devices, readonlyRootfs,
                                                cgroupParent, runtime⟩
                                            | _ => .error "Runtime"
                                          | _ => .error "CgroupParent"
                                        | _ => .error "ReadonlyRootfs"
                                      | .error e => .error e
                                    | _ => .error "Devices"
                                  | .error e => .error e
                                | _ => .error "PortBindings"
                              | .error e => .error e
                            | _ => .error "Binds"
                          | .error e => .error e
                        | _ => .error "RestartPolicy"
                      | .error e => .error e
                    | _ => .error "Resources"
                  | .error e => .error e
                | _ => .error "CapAdd"
              | .error e => .error e
            | _ => .error "SecurityOpt"
          | _ => .error "NetworkMode"
        | _ => .error "IpcMode"
      | _ => .error "PidMode"
    | _ => .error "Privileged"
  | _ => .error "expected object"

theorem decHostConfig_enc (h : HostConfig) :
    decHostConfig (encHostConfig h) = .ok h := by
  simp [decHostConfig, encHostConfig, jLookup,
    decStrList_enc, decStrPairs_enc, decResources, encResources,
    decRestartPolicy, encRestartPolicy]

/-- A nil Go pointer marshals as `null`. -/
def encOptionConfig : Option ContainerConfig → Json
  | none => .null
  | some c => encContainerConfig c

def decOptionConfig : Json → Except String (Option ContainerConfig)
  | .null => .ok none
  | j =>
    match decContainerConfig j with
    | .ok c => .ok (some c)
    | .error e => .error e

theorem decOptionConfig_enc (o : Option ContainerConfig) :
    decOptionConfig (encOptionConfig o) = .ok o := by
  cases o with
  | none => rfl
  | some c =>
    show (match decContainerConfig (encContainerConfig c) with
      | .ok c => Except.ok (some c)
      | .error e => Except.error e) = Except.ok (some c)
    rw [decContainerConfig_enc]

def encOptionHostConfig : Option HostConfig → Json
  | none => .null
  | some h => encHostConfig h

def decOptionHostConfig : Json → Except String (Option HostConfig)
  | .null => .ok none
  | j =>
    match decHostConfig j with
    | .ok h => .ok (some h)
    | .error e => .error e

theorem decOptionHostConfig_enc (o : Option HostConfig) :
    decOptionHostConfig (encOptionHostConfig o) = .ok o := by
  cases o with
  | none => rfl
  | some h =>
    show (match decHostConfig (encHostConfig h) with
      | .ok h => Except.ok (some h)
      | .error e => Except.error e) = Except.ok (some h)
    rw [decHostConfig_enc]

def encContainerState (s : ContainerState) : Json :=
  .obj [("id", .str s.id), ("name", .str s.name), ("image", .str s.image),
        ("config", encOptionConfig s.config),
        ("host_config", encOptionHostConfig s.hostConfig),
        ("network_config", encJsonPairs s.networkConfig),
        ("mounts", encMountPointList s.mounts),
        ("process_pid", .num s.processPID), ("created", .num s.created),
        ("rootfs", .str s.rootFS), ("runtime", .str s.runtime),
        ("bundle_path", .str s.bundlePath), ("cgroup_path", .str s.cgroupPath),
        ("namespaces", encStrPairs s.namespaces),
        ("environment", encStrPairs s.environment),
        ("labels", encStrPairs s.labels)]

def decContainerState : Json → Except String ContainerState
  | .obj fs =>
    match jLookup fs "id" with
    | some (.str id) =>
      match jLookup fs "name" with
      | some (.str name) =>
        match jLookup fs "image" with
        | some (.str image) =>
          match jLookup fs "config" with
          | some jc =>
            match decOptionConfig jc with
            | .ok config =>
              match jLookup fs "host_config" with
              | some jh =>
                match decOptionHostConfig jh with
                | .ok hostConfig =>
                  match jLookup fs "network_config" with
                  | some jn =>
                    match decJsonPairs jn with
                    | .ok networkConfig =>
                      match jLookup fs "mounts" with
                      | some jm =>
                        match decMountPointList jm with
                        | .ok mounts =>
                          match jLookup fs "process_pid" with
                          | some (.num processPID) =>
                            match jLookup fs "created" with
                            | some (.num created) =>
                              match jLookup fs "rootfs" with
                              | some (.str rootFS) =>
                                match jLookup fs "runtime" with
                                | some (.str runtime) =>
                                  match jLookup fs "bundle_path" with
                                  | some (.str bundlePath) =>
                                    match jLookup fs "cgroup_path" with
                                    | some (.str cgroupPath) =>
                                      match jLookup fs "namespaces" with
                                      | some jns =>
                                        match decStrPairs jns with
                                        | .ok namespaces =>
                                          match jLookup fs "environment" with
                                          | some jenv =>
                                            match decStrPairs jenv with
                                            | .ok environment =>
                                              match jLookup fs "labels" with
                                              | some jlab =>
                                                match decStrPairs jlab with
                                                | .ok labels =>
                                                  .ok ⟨id, name, image, config,
                                                    hostConfig, networkConfig, mounts,
                                                    processPID, created, rootFS,
                                                    runtime, bundlePath, cgroupPath,
                                                    namespaces, environment, labels⟩
                                                | .error e => .error e
                                              | _ => .error "labels"
                                            | .error e => .error e
                                          | _ => .error "environment"
                                        | .error e => .error e
                                      | _ => .error "namespaces"
                                    | _ => .error "cgroup_path"
                                  | _ => .error "bundle_path"
                                | _ => .error "runtime"
                              | _ => .error "rootfs"
                            | _ => .error "created"
                          | _ => .error "process_pid"
                        | .error e => .error e
                      | _ => .error "mounts"
                    | .error e => .error e
                  | _ => .error "network_config"
                | .error e => .error e
              | _ => .error "host_config"
            | .error e => .error e
          | _ => .error "config"
        | _ => .error "image"
      | _ => .error "name"
    | _ => .error "id"
  | _ => .error "expected object"

theorem decContainerState_enc (s : ContainerState) :
    decContainerState (encContainerState s) = .ok s := by
  simp [decContainerState, encContainerState, jLookup,
    decOptionConfig_enc, decOptionHostConfig_enc, decJsonPairs, encJsonPairs,
    decMountPointList_enc, decStrPairs_enc]

def encMountMapping (m : MountMapping) : Json :=
  .obj [("container_path", .str m.containerPath), ("host_path", .str m.hostPath),
        ("type", .str m.type), ("options", .str m.options),
        ("is_external", .bool m.isExternal), ("read_only", .bool m.readOnly)]

def decMountMapping : Json → Except String MountMapping
  | .obj fs =>
    match jLookup fs "container_path" with
    | some (.str containerPath) =>
      match jLookup fs "host_path" with
      | some (.str hostPath) =>
        match jLookup fs "type" with
        | some (.str type) =>
          match jLookup fs "options" with
          | some (.str options) =>
            match jLookup fs "is_external" with
            | some (.bool isExternal) =>
              match jLookup fs "read_only" with
              | some (.bool readOnly) =>
                .ok ⟨containerPath, hostPath, type, options, isExternal, readOnly⟩
              | _ => .error "read_only"
            | _ => .error "is_external"
          | _ => .error "options"
        | _ => .error "type"
      | _ => .error "host_path"
    | _ => .error "container_path"
  | _ => .error "expected object"

theorem decMountMapping_enc (m : MountMapping) :
    decMountMapping (encMountMapping m) = .ok m := rfl

def encMountMappingList (l : List MountMapping) : Json := .arr (l.map encMountMapping)

def decMountMappingElems : List Json → Except String (List MountMapping)
  | [] => .ok []
  | e :: rest =>
    match decMountMapping e with
    | .ok m =>
      match decMountMappingElems rest with
      | .ok l => .ok (m :: l)
      | .error err => .error err
    | .error err => .error err

def decMountMappingList : Json → Except String (List MountMapping)
  | .arr es => decMountMappingElems es
  | _ => .error "expected array"

theorem decMountMappingList_enc (l : List MountMapping) :
    decMountMappingList (encMountMappingList l) = .ok l := by
  unfold decMountMappingList encMountMappingList
  induction l with
  | nil => rfl
  | cons m rest ih =>
    simp only [List.map_cons, decMountMappingElems, decMountMapping_enc]
    simp only [decMountMappingList, encMountMappingList] at ih
    rw [ih]

/-- The artifact store: path to parsed JSON content of the file there,
`none` when absent. -/
def ArtifactStore := String → Option Json

/-- `SaveMountMappings` (checkpoint.Manager, lines 212-219): marshal
the list and write it at the path. -/
def SaveMountMappings (fsys : ArtifactStore) (mappings : List MountMapping)
    (filePath : String) : ArtifactStore :=
  fun p => if p == filePath then some (encMountMappingList mappings) else fsys p

/-- `LoadMountMappings` (checkpoint.Manager, lines 221-237): the file
must exist, then its contents are unmarshalled. -/
def LoadMountMappings (fsys : ArtifactStore) (filePath : String) :
    Except String (List MountMapping) :=
  match fsys filePath with
  | none => .error ("mount mappings file not found: " ++ filePath)
  | some j => decMountMappingList j

/-- `SaveContainerMetadata` (pkg/docker/manager.go, lines 250-261). -/
def SaveContainerMetadata (fsys : ArtifactStore) (state : ContainerState)
    (filePath : String) : ArtifactStore :=
  fun p => if p == filePath then some (encContainerState state) else fsys p

/-- `LoadContainerMetadata` (pkg/docker/manager.go, lines 263-275). -/
def LoadContainerMetadata (fsys : ArtifactStore) (filePath : String) :
    Except String ContainerState :=
  match fsys filePath with
  | none => .error ("failed to read metadata file: " ++ filePath)
  | some j => decContainerState j

/-- C9: saving a MountMapping list with SaveMountMappings and loading
it back with LoadMountMappings returns the original list, equal in all
fields, and saving a ContainerState with SaveContainerMetadata and
loading it back with LoadContainerMetadata returns the original value,
equal in all fields. -/
theorem saveLoad_roundtrip (fsys : ArtifactStore)
    (mappings : List MountMapping) (state : ContainerState)
    (p1 p2 : String) :
    LoadMountMappings (SaveMountMappings fsys mappings p1) p1 = .ok mappings ∧
    LoadContainerMetadata (SaveContainerMetadata fsys state p2) p2 = .ok state := by
  constructor
  · show (match (if (p1 == p1) then some (encMountMappingList mappings)
        else fsys p1) with
      | none => Except.error ("mount mappings file not found: " ++ p1)
      | some j => decMountMappingList j) = .ok mappings
    rw [if_pos (by simp)]
    exact decMountMappingList_enc mappings
  · show (match (if (p2 == p2) then some (encContainerState state)
        else fsys p2) with
      | none => Except.error ("failed to read metadata file: " ++ p2)
      | some j => decContainerState j) = .ok state
    rw [if_pos (by simp)]
    exact decContainerState_enc state

end DockerCR
